import Mathlib

/-!
Verification of the ttmm CLI (`src/ttmm/cli.py`) and Streamlit app
(`src/app/app.py`) against the repository specification.

Numbers: Python floats are modelled by real numbers (`ℝ`); `x ** 0.5` is
modelled by real exponentiation `x ^ (0.5 : ℝ)` and `math.sqrt` by
`Real.sqrt`.  A `NULL` churn column is modelled by `Option ℝ`.
-/

namespace TTMM

/-- A row returned by `store.get_hotspots`: qualified name, file path, line
number, complexity and (possibly `NULL`) churn, as consumed by
`do_hotspots` in `cli.py` and the hotspot table / summary in `app.py`. -/
structure HotspotRow where
  qualname : String
  file_path : String
  lineno : Nat
  complexity : ℝ
  churn : Option ℝ

/-- Python `churn or 0` on an optional float: `None` maps to `0`, and the
falsy float `0.0` maps to the integer `0`, which denotes the same real
number, so numerically this is `Option.getD · 0`. -/
def orZero (x : Option ℝ) : ℝ := x.getD 0

/-- `cli.py` line 31 (`do_hotspots`):
`score = row["complexity"] * (1.0 + (row["churn"] or 0) ** 0.5)`. -/
noncomputable def cliScore (complexity : ℝ) (churn : Option ℝ) : ℝ :=
  complexity * (1.0 + (orZero churn) ^ (0.5 : ℝ))

/-- `app.py` line 241 (hotspot table):
`score = row["complexity"] * (1.0 + (row["churn"] or 0) ** 0.5)`. -/
noncomputable def appTableScore (complexity : ℝ) (churn : Option ℝ) : ℝ :=
  complexity * (1.0 + (orZero churn) ^ (0.5 : ℝ))

/-- `app.py` line 82 (`_show_repository_summary`):
`score = row["complexity"] * (1.0 + math.sqrt(row["churn"] or 0))`. -/
noncomputable def appSummaryScore (complexity : ℝ) (churn : Option ℝ) : ℝ :=
  complexity * (1.0 + Real.sqrt (orZero churn))

/-- Spec §4.4, written from the specification text for comparison with the
implementations: `score(symbol) = complexity(symbol) * (1 + sqrt(churn))`. -/
noncomputable def specScore (complexity churn : ℝ) : ℝ :=
  complexity * (1 + Real.sqrt churn)

/-- The score of a hotspot row, as computed by `do_hotspots`: it is a
function of the row alone (no store, history or parser argument exists). -/
noncomputable def rowScore (r : HotspotRow) : ℝ := cliScore r.complexity r.churn

theorem orZero_some (v : ℝ) : orZero (some v) = v := rfl

theorem orZero_none : orZero none = 0 := rfl

/-- Real exponentiation with exponent `0.5` agrees with `Real.sqrt`
everywhere (both vanish on negative arguments). -/
theorem rpow_half_eq_sqrt (x : ℝ) : x ^ (0.5 : ℝ) = Real.sqrt x := by
  rw [Real.sqrt_eq_rpow]
  norm_num

/-- The CLI score in `Real.sqrt` form. -/
theorem cliScore_eq (c : ℝ) (ch : Option ℝ) :
    cliScore c ch = c * (1 + Real.sqrt (orZero ch)) := by
  unfold cliScore
  rw [rpow_half_eq_sqrt]
  norm_num

theorem appTableScore_eq (c : ℝ) (ch : Option ℝ) :
    appTableScore c ch = c * (1 + Real.sqrt (orZero ch)) := by
  unfold appTableScore
  rw [rpow_half_eq_sqrt]
  norm_num

theorem appSummaryScore_eq (c : ℝ) (ch : Option ℝ) :
    appSummaryScore c ch = c * (1 + Real.sqrt (orZero ch)) := by
  unfold appSummaryScore
  norm_num

/-- Claim C1: for every hotspot row with a persisted churn value, the score
displayed by the CLI hotspots command, the app hotspot table, and the app
summary equals `complexity * (1 + sqrt(churn))`. -/
theorem hotspot_score_matches_spec (c ch : ℝ) :
    cliScore c (some ch) = specScore c ch ∧
    appTableScore c (some ch) = specScore c ch ∧
    appSummaryScore c (some ch) = specScore c ch := by
  refine ⟨?_, ?_, ?_⟩ <;>
    simp [cliScore_eq, appTableScore_eq, appSummaryScore_eq, specScore, orZero_some]

/-- Claim C2: the hotspot score is monotone — with equal churn, a row of
higher (or equal) complexity scores no lower; with equal non-negative
complexity, a row of higher non-negative churn scores no lower. -/
theorem hotspot_score_monotone :
    (∀ (c₁ c₂ : ℝ) (ch : Option ℝ), c₁ ≤ c₂ → cliScore c₁ ch ≤ cliScore c₂ ch) ∧
    (∀ (c ch₁ ch₂ : ℝ), 0 ≤ c → 0 ≤ ch₁ → ch₁ ≤ ch₂ →
      cliScore c (some ch₁) ≤ cliScore c (some ch₂)) := by
  constructor
  · intro c₁ c₂ ch h
    rw [cliScore_eq, cliScore_eq]
    have hk : (0 : ℝ) ≤ 1 + Real.sqrt (orZero ch) := by positivity
    exact mul_le_mul_of_nonneg_right h hk
  · intro c ch₁ ch₂ hc _ h
    rw [cliScore_eq, cliScore_eq]
    have hs : Real.sqrt (orZero (some ch₁)) ≤ Real.sqrt (orZero (some ch₂)) := by
      simpa [orZero_some] using Real.sqrt_le_sqrt h
    exact mul_le_mul_of_nonneg_left (by linarith) hc

/-- Witness for C2 at concrete inputs. -/
theorem hotspot_score_monotone_witness :
    cliScore 1 (some 4) ≤ cliScore 2 (some 4) ∧
    cliScore 2 (some 1) ≤ cliScore 2 (some 4) :=
  ⟨hotspot_score_monotone.1 1 2 (some 4) (by norm_num),
   hotspot_score_monotone.2 2 1 4 (by norm_num) (by norm_num) (by norm_num)⟩

/-- Claim C3: a row whose churn is missing (`None`) is scored as if churn
were zero — `score = complexity * 1` — in the CLI hotspots command, the app
hotspot table, and the app summary. -/
theorem missing_churn_scored_as_zero (c : ℝ) :
    cliScore c none = c * 1 ∧ appTableScore c none = c * 1 ∧
    appSummaryScore c none = c * 1 := by
  refine ⟨?_, ?_, ?_⟩ <;>
    simp [cliScore_eq, appTableScore_eq, appSummaryScore_eq, orZero_none]

/-- Claim C7: the displayed hotspot score is a deterministic pure function
of the persisted `(complexity, churn)` pair — any two rows agreeing on
those two fields get equal scores, whatever their other fields; the
computation takes no store, parser or history argument at all. -/
theorem hotspot_score_pure (r₁ r₂ : HotspotRow)
    (hc : r₁.complexity = r₂.complexity) (hch : r₁.churn = r₂.churn) :
    rowScore r₁ = rowScore r₂ := by
  unfold rowScore
  rw [hc, hch]

/-- Witness for C7: two rows differing in name, file and line but agreeing
on `(complexity, churn)` score equally. -/
theorem hotspot_score_pure_witness :
    rowScore ⟨"a.f", "a.py", 1, 2, some 1⟩ = rowScore ⟨"b.g", "b.py", 99, 2, some 1⟩ :=
  hotspot_score_pure ⟨"a.f", "a.py", 1, 2, some 1⟩ ⟨"b.g", "b.py", 99, 2, some 1⟩ rfl rfl

/-- The message printed by `do_callers` / `do_callees` when
`store.resolve_symbol` returns `None`: `f"Symbol \x27{args.symbol}\x27 not found"`. -/
def notFoundMsg (symbol : String) : String :=
  "Symbol \x27" ++ symbol ++ "\x27 not found"

/-- The user-visible outcome of `do_callers` (`cli.py` lines 40–54). -/
inductive CallersOutcome where
  | notFound (name : String)
  | noCallers
  | callersList (rows : List (String × String))
deriving DecidableEq

/-- `do_callers` (`cli.py` lines 40–54), abstracted over the store (the
`store` module is not part of the source tree): resolve the symbol; if
unresolved print the not-found message and return, otherwise fetch the
callers and report either the empty outcome or the list. -/
def do_callers (resolve : String → Option Nat)
    (get_callers : Nat → List (String × String)) (symbol : String) :
    CallersOutcome :=
  match resolve symbol with
  | none => .notFound symbol
  | some sid =>
    match get_callers sid with
    | [] => .noCallers
    | r :: rs => .callersList (r :: rs)

/-- Python truthiness of an optional string as used by
`f" ({path})" if path else ""`: `None` and the empty string are falsy. -/
def strTruthy (p : Option String) : Bool :=
  match p with
  | none => false
  | some s => !(s == "")

/-- `cli.py` line 70: `loc = f" ({path})" if path else ""`. -/
def calleeLoc (path : Option String) : String :=
  if strTruthy path then " (" ++ path.getD "" ++ ")" else ""

/-- `cli.py` line 69: `suffix = " (unresolved)" if unresolved else ""`. -/
def calleeSuffix (unresolved : Bool) : String :=
  if unresolved then " (unresolved)" else ""

/-- `cli.py` line 71: `print(f"{name}{loc}{suffix}")`. -/
def formatCallee (name : String) (path : Option String) (unresolved : Bool) :
    String :=
  name ++ calleeLoc path ++ calleeSuffix unresolved

/-- The user-visible outcome of `do_callees` (`cli.py` lines 57–73). -/
inductive CalleesOutcome where
  | notFound (name : String)
  | noCallees
  | calleeLines (lines : List String)
deriving DecidableEq

/-- `do_callees` (`cli.py` lines 57–73), abstracted over the store: resolve
the symbol; if unresolved print the not-found message and return, otherwise
fetch the `(name, path, unresolved)` callee rows and report either the
empty outcome or one formatted line per row. -/
def do_callees (resolve : String → Option Nat)
    (get_callees : Nat → List (String × Option String × Bool))
    (symbol : String) : CalleesOutcome :=
  match resolve symbol with
  | none => .notFound symbol
  | some sid =>
    match get_callees sid with
    | [] => .noCallees
    | r :: rs =>
      .calleeLines ((r :: rs).map fun x => formatCallee x.1 x.2.1 x.2.2)

/-- Claim C4: an unresolved symbol name yields the distinct not-found
outcome without the edge query being consulted (the outcome is the same for
any two edge functions), a resolved symbol with no edges yields the
distinct no-callers / no-callees outcome, and the two outcomes never
coincide. -/
theorem notfound_vs_empty_distinct :
    (∀ (resolve : String → Option Nat)
       (g₁ g₂ : Nat → List (String × String)) (sym : String),
       resolve sym = none →
         do_callers resolve g₁ sym = .notFound sym ∧
         do_callers resolve g₁ sym = do_callers resolve g₂ sym) ∧
    (∀ (resolve : String → Option Nat) (g : Nat → List (String × String))
       (sym : String) (sid : Nat),
       resolve sym = some sid → g sid = [] →
         do_callers resolve g sym = .noCallers) ∧
    (∀ (resolve : String → Option Nat)
       (g₁ g₂ : Nat → List (String × Option String × Bool)) (sym : String),
       resolve sym = none →
         do_callees resolve g₁ sym = .notFound sym ∧
         do_callees resolve g₁ sym = do_callees resolve g₂ sym) ∧
    (∀ (resolve : String → Option Nat)
       (g : Nat → List (String × Option String × Bool)) (sym : String)
       (sid : Nat),
       resolve sym = some sid → g sid = [] →
         do_callees resolve g sym = .noCallees) ∧
    (∀ n, (CallersOutcome.notFound n ≠ .noCallers) ∧
          (CalleesOutcome.notFound n ≠ .noCallees)) := by
  refine ⟨?_, ?_, ?_, ?_, ?_⟩
  · intro resolve g₁ g₂ sym h
    constructor <;> simp [do_callers, h]
  · intro resolve g sym sid h hg
    simp [do_callers, h, hg]
  · intro resolve g₁ g₂ sym h
    constructor <;> simp [do_callees, h]
  · intro resolve g sym sid h hg
    simp [do_callees, h, hg]
  · intro n
    exact ⟨by simp, by simp⟩

/-- Witness for C4 with a one-symbol store. -/
theorem notfound_vs_empty_distinct_witness :
    do_callers (fun _ => none) (fun _ => [("m.f", "m.py")]) "g" = .notFound "g" ∧
    do_callers (fun _ => some 0) (fun _ => []) "g" = .noCallers :=
  ⟨(notfound_vs_empty_distinct.1 (fun _ => none)
      (fun _ => [("m.f", "m.py")]) (fun _ => []) "g" rfl).1,
   notfound_vs_empty_distinct.2.1 (fun _ => some 0) (fun _ => []) "g" 0 rfl rfl⟩

/-- Claim C5 counterexample: the claim says the file location is omitted
exactly when the file is absent, but a present-but-empty path is also
omitted (Python truthiness): the printed line for callee `h` with path `""`
carries no location even though the path is not `None`. -/
theorem calleeLoc_empty_path_counterexample :
    formatCallee "h" (some "") false = "h" ∧
    calleeLoc (some "") = "" ∧ (some "" : Option String) ≠ none := by
  refine ⟨rfl, rfl, ?_⟩
  simp

/-- Claim C5 (amended): each callee row carries a name, an optional file
and an unresolved flag; the printed line is the name followed by the
location component and the unresolved marker, the marker is printed exactly
when `unresolved` is true, and the location is omitted exactly when the
path is absent or empty. -/
theorem callee_line_components :
    (∀ (n : String) (p : Option String) (u : Bool),
       formatCallee n p u = n ++ calleeLoc p ++ calleeSuffix u) ∧
    (∀ u, calleeSuffix u = " (unresolved)" ↔ u = true) ∧
    (∀ p, calleeLoc p = "" ↔ (p = none ∨ p = some "")) := by
  refine ⟨fun n p u => rfl, ?_, ?_⟩
  · intro u
    cases u <;> simp [calleeSuffix]
  · intro p
    match p with
    | none => simp [calleeLoc, strTruthy]
    | some s =>
      by_cases hs : s = ""
      · subst hs
        simp [calleeLoc, strTruthy]
      · have hne : (" (" ++ s ++ ")") ≠ "" := by
          intro h
          have hlen := congrArg String.length h
          rw [String.length_append, String.length_append] at hlen
          have h2 : (" (" : String).length = 2 := rfl
          have h1 : (")" : String).length = 1 := rfl
          have h0 : ("" : String).length = 0 := rfl
          omega
        simp [calleeLoc, strTruthy, hs, hne]

/-- Witness for C5 at concrete rows. -/
theorem callee_line_components_witness :
    calleeSuffix true = " (unresolved)" ∧ calleeLoc none = "" ∧
    formatCallee "h" none true = "h" ++ "" ++ " (unresolved)" :=
  ⟨(callee_line_components.2.1 true).mpr rfl,
   (callee_line_components.2.2 none).mpr (Or.inl rfl),
   callee_line_components.1 "h" none true⟩

/-- The invocation `do_trace` hands to `trace.run_tracing` (`cli.py` line
79): the module entry point, the script path, and the remaining arguments
passed through unchanged. -/
structure TraceCall where
  module : Option String
  script : Option String
  args : List String
deriving DecidableEq

/-- The `trace` subcommand of `main` (`cli.py` lines 115–121) followed by
`do_trace` (lines 76–80).  `--module` and `--script` are declared in a
mutually exclusive group with `required=True`, so argparse rejects an
invocation supplying neither or both before `do_trace` runs; this embeds
that declared semantics.  On success `do_trace` calls
`trace.run_tracing(path, module, script, args=target_args)` with the
remainder arguments unchanged. -/
def traceMain (module script : Option String) (rest : List String) :
    Except String TraceCall :=
  match module, script with
  | none, none => .error "one of the arguments --module --script is required"
  | some _, some _ =>
    .error "argument --script: not allowed with argument --module"
  | some m, none => .ok ⟨some m, none, rest⟩
  | none, some s => .ok ⟨none, some s, rest⟩

/-- Claim C8: the trace command rejects invocations supplying neither or
both of `--module` / `--script` (no trace invocation is produced), and any
accepted invocation carries exactly one of the two together with the
remaining arguments passed through unchanged. -/
theorem trace_requires_exactly_one_entry :
    (∀ rest, (traceMain none none rest).isOk = false) ∧
    (∀ m s rest, (traceMain (some m) (some s) rest).isOk = false) ∧
    (∀ (module script : Option String) (rest : List String) (tc : TraceCall),
       traceMain module script rest = .ok tc →
         (tc.module.isSome ^^ tc.script.isSome) = true ∧ tc.args = rest) := by
  refine ⟨fun rest => rfl, fun m s rest => rfl, ?_⟩
  intro module script rest tc h
  match module, script with
  | none, none => exact absurd h (by simp [traceMain])
  | some _, some _ => exact absurd h (by simp [traceMain])
  | some m, none =>
    simp only [traceMain, Except.ok.injEq] at h
    subst h
    exact ⟨rfl, rfl⟩
  | none, some s =>
    simp only [traceMain, Except.ok.injEq] at h
    subst h
    exact ⟨rfl, rfl⟩

/-- Witness for C8: a module-only invocation is accepted with its
remainder arguments intact. -/
theorem trace_requires_exactly_one_entry_witness :
    ((TraceCall.mk (some "pkg.mod:f") none ["x", "y"]).module.isSome ^^
      (TraceCall.mk (some "pkg.mod:f") none ["x", "y"]).script.isSome) = true ∧
    (TraceCall.mk (some "pkg.mod:f") none ["x", "y"]).args = ["x", "y"] :=
  trace_requires_exactly_one_entry.2.2 (some "pkg.mod:f") none ["x", "y"]
    ⟨some "pkg.mod:f", none, ["x", "y"]⟩ rfl

/-- An observable effect of a CLI command: opening or closing the store
connection, or printing a line. -/
inductive Event where
  | openConn
  | closeConn
  | print (line : String)
deriving DecidableEq

/-- A fallible store, modelling the `store` module (absent from the source
tree): each query either returns rows or raises. -/
structure Store where
  resolve : String → Except String (Option Nat)
  get_callers : Nat → Except String (List (String × String))
  get_callees : Nat → Except String (List (String × Option String × Bool))
  get_hotspots : Nat → Except String (List HotspotRow)

/-- `connect` emits `openConn`, the `try` body runs, and the `finally`
clause emits `closeConn` whatever the body did — the shape shared by
`do_hotspots`, `do_callers` and `do_callees`.  The result pairs the emitted
events with the uncaught exception, if any. -/
def withConn (body : List Event × Option String) :
    List Event × Option String :=
  (Event.openConn :: body.1 ++ [Event.closeConn], body.2)

/-- Effect trace of `do_callers` (`cli.py` lines 40–54): any store call may
raise; an unresolved symbol prints the not-found message and returns early;
the `finally` clause closes the connection in every case. -/
def do_callers_run (st : Store) (symbol : String) :
    List Event × Option String :=
  withConn
    (match st.resolve symbol with
     | .error e => ([], some e)
     | .ok none => ([.print (notFoundMsg symbol)], none)
     | .ok (some sid) =>
       match st.get_callers sid with
       | .error e => ([], some e)
       | .ok [] => ([.print "No callers found."], none)
       | .ok (r :: rs) =>
         ((r :: rs).map fun x => .print (x.1 ++ " (" ++ x.2 ++ ")"), none))

/-- Effect trace of `do_callees` (`cli.py` lines 57–73). -/
def do_callees_run (st : Store) (symbol : String) :
    List Event × Option String :=
  withConn
    (match st.resolve symbol with
     | .error e => ([], some e)
     | .ok none => ([.print (notFoundMsg symbol)], none)
     | .ok (some sid) =>
       match st.get_callees sid with
       | .error e => ([], some e)
       | .ok [] => ([.print "No callees found."], none)
       | .ok (r :: rs) =>
         ((r :: rs).map fun x => .print (formatCallee x.1 x.2.1 x.2.2), none))

/-- The printing loop of `do_hotspots` (`cli.py` lines 30–35): rows are
printed in order until formatting a row raises (the f-string itself can
raise, e.g. `f"{row[\x27churn\x27]:.3f}"` on a `NULL` churn), in which case
the loop stops with that exception. -/
def printRows (fmt : HotspotRow → Except String String) :
    List HotspotRow → List Event × Option String
  | [] => ([], none)
  | r :: rs =>
    match fmt r with
    | .error e => ([], some e)
    | .ok line =>
      let rest := printRows fmt rs
      (.print line :: rest.1, rest.2)

/-- Effect trace of `do_hotspots` (`cli.py` lines 23–37), abstracted over
the row formatter. -/
def do_hotspots_run (st : Store) (limit : Nat)
    (fmt : HotspotRow → Except String String) :
    List Event × Option String :=
  withConn
    (match st.get_hotspots limit with
     | .error e => ([], some e)
     | .ok [] =>
       ([.print "No hotspot data found. Did you index the repository?"], none)
     | .ok (r :: rs) => printRows fmt (r :: rs))

/-- Claim C10: every CLI command that opens a store connection closes it on
every exit path — for every store behaviour (including failing queries),
every symbol (including the not-found early return) and every formatter
(including one that raises mid-loop), `closeConn` is among the emitted
events. -/
theorem conn_closed_on_all_paths (st : Store) (symbol : String) (limit : Nat)
    (fmt : HotspotRow → Except String String) :
    Event.closeConn ∈ (do_hotspots_run st limit fmt).1 ∧
    Event.closeConn ∈ (do_callers_run st symbol).1 ∧
    Event.closeConn ∈ (do_callees_run st symbol).1 := by
  refine ⟨?_, ?_, ?_⟩ <;>
    simp [do_hotspots_run, do_callers_run, do_callees_run, withConn]

/-- An indexed symbol as surfaced by the answer operation: qualified name,
file path and line number. -/
structure Symbol where
  qualname : String
  file_path : String
  lineno : Nat
deriving DecidableEq

/-- Results are ordered by non-increasing score. -/
def scoreGE (a b : Symbol × ℚ) : Prop := b.2 ≤ a.2

instance : DecidableRel scoreGE := fun a b => inferInstanceAs (Decidable (b.2 ≤ a.2))

instance : IsTotal (Symbol × ℚ) scoreGE := ⟨fun a b => le_total b.2 a.2⟩

instance : IsTrans (Symbol × ℚ) scoreGE := ⟨fun _ _ _ hab hbc => le_trans hbc hab⟩

/-- Modelled from the spec: `search.answer_question` — the `search` module
is not part of the source tree, only its callers (`do_answer` in `cli.py`
and the answer handler in `app.py`) are.  Spec §4.5: score each indexed
symbol against the query with a lexical relevance function and return an
ordered sequence of at most the caller-specified top-K results, scores
non-increasing. -/
def answer_question (syms : List Symbol) (relevance : Symbol → ℚ)
    (top : Nat) : List (Symbol × ℚ) :=
  (List.insertionSort scoreGE (syms.map fun s => (s, relevance s))).take top

/-- Claim C6: for every query (abstracted as its relevance scoring) and
top-K limit, the answer operation returns a sequence of scored
(qualified-name, file, line) symbols of length at most the limit, with
scores non-increasing along the sequence. -/
theorem answer_bounded_and_sorted (syms : List Symbol)
    (relevance : Symbol → ℚ) (top : Nat) :
    (answer_question syms relevance top).length ≤ top ∧
    List.Sorted scoreGE (answer_question syms relevance top) := by
  constructor
  · simp [answer_question]
  · exact List.Pairwise.sublist (List.take_sublist _ _)
      (List.sorted_insertionSort scoreGE _)

/-- Claim C9: the CLI expression `(churn or 0) ** 0.5` and the app
summary's `math.sqrt(churn or 0)` yield the same score on every churn
value (in particular on every non-negative or missing one): the two
hotspot-score implementations are equivalent. -/
theorem score_implementations_equivalent (c : ℝ) (ch : Option ℝ) :
    cliScore c ch = appSummaryScore c ch ∧
    appTableScore c ch = appSummaryScore c ch := by
  rw [cliScore_eq, appTableScore_eq, appSummaryScore_eq]
  exact ⟨rfl, rfl⟩

end TTMM
